import Mathlib

/-! # Verification of the thinkforce-mcp tool surface

A shallow embedding of the tool handlers of the thinkforce-mcp repository
(`src/core/tools.ts`, `src/tools/instagramTools.ts`, `src/instagram.ts` and the
per-call-credential Instagram tool file), together with theorems settling the
frozen claims about them.

Modelling conventions:
* JavaScript numbers are idealised as rationals (`ℚ`); the claims settled here
  do not depend on float rounding.
* Platform built-ins that the handlers call (`JSON.parse` / `JSON.stringify`,
  `crypto.randomUUID`, `Math.pow`, `Math.random`, the Unicode case maps, the
  regex engine, the network, the Instagram client library) are external
  collaborators: they appear as explicit function parameters or outcome
  parameters, never as stubs baked into the handler logic.
* A JS function that can `throw` is embedded as `Except String _`; the string
  is the message carried by the thrown error.
* The staging directory used by the download→upload pipeline is embedded as a
  `Finset String` of the file paths that currently exist in it.
-/

namespace ThinkforceMcp

/-! ## The calculate tool (src/core/tools.ts)

The handler switches on the operation enum; `divide` throws on `b === 0`,
`power` delegates to the platform `Math.pow` (passed in as `pow`).  The
result is interpolated into the returned string; we keep the numeric result,
which is what the claims are about. -/

inductive CalcOp where
  | add | subtract | multiply | divide | power
deriving DecidableEq, Repr

def calcExecute (pow : ℚ → ℚ → ℚ) (op : CalcOp) (a b : ℚ) : Except String ℚ :=
  match op with
  | .add => .ok (a + b)
  | .subtract => .ok (a - b)
  | .multiply => .ok (a * b)
  | .divide =>
      if b = 0 then .error "Division by zero is not allowed"
      else .ok (a / b)
  | .power => .ok (pow a b)

/-- The uniform success/error envelope a dispatched call produces: the FastMCP
dispatcher catches anything the handler throws and reports it as a failure,
a successful return value is wrapped as a success payload. -/
inductive Envelope (α : Type) where
  | success : α → Envelope α
  | failure : String → Envelope α
deriving DecidableEq, Repr

def Envelope.ofExcept {α : Type} : Except String α → Envelope α
  | .ok a => .success a
  | .error e => .failure e

def Envelope.isSuccess {α : Type} : Envelope α → Bool
  | .success _ => true
  | .failure _ => false

/-- Dispatch of `calculate`: handler result or thrown error, converted to
the uniform envelope at the dispatch boundary. -/
def dispatchCalculate (pow : ℚ → ℚ → ℚ) (op : CalcOp) (a b : ℚ) : Envelope ℚ :=
  Envelope.ofExcept (calcExecute pow op a b)

/-! ## The text-transform tool (src/core/tools.ts)

The reverse operation splits the text into its code-unit sequence, reverses
it and rejoins it.  We embed a JS string as a Lean `String` and its code-unit
sequence as `String.data`.  The Unicode case maps and the regex split used by
`word_count` are platform built-ins, passed in as parameters. -/

inductive TextOp where
  | uppercase | lowercase | capitalize | reverse | word_count | char_count
deriving DecidableEq, Repr

structure TextPlatform where
  /-- JS `String.prototype.toUpperCase` -/
  upper : String → String
  /-- JS `String.prototype.toLowerCase` -/
  lower : String → String
  /-- per-character upper map used by `charAt(0).toUpperCase()` -/
  upperChar : Char → Char
  /-- per-character lower map used by the lowercasing of `slice(1)` -/
  lowerChar : Char → Char
  /-- JS `text.trim().split(/\s+/)`: split on whitespace runs (regex engine) -/
  splitWsRuns : String → List String

/-- Capitalisation of one word: upper-case the first code unit, lower-case
the rest. -/
def capitalizeWord (p : TextPlatform) (w : String) : String :=
  match w.data with
  | [] => ""
  | c :: rest => String.mk (p.upperChar c :: (String.mk rest).data.map p.lowerChar)

def textTransform (p : TextPlatform) (op : TextOp) (text : String) : String :=
  match op with
  | .uppercase => p.upper text
  | .lowercase => p.lower text
  | .capitalize =>
      String.intercalate " " (((text.split (· = ' '))).map (capitalizeWord p))
  | .reverse => String.mk text.data.reverse
  | .word_count => "Word count: " ++ toString (p.splitWsRuns text).length
  | .char_count => "Character count: " ++ toString text.data.length

/-! ## The generate-data tool (src/core/tools.ts)

The zod schema is `count: z.number().min(1).max(100).default(1)`.  The handler
loops `for (let i = 0; i < count; i++)` pushing one generated string per
iteration; the value pushed on iteration `i` is modelled by the external
generator `gen i` (for `type: "uuid"` it is the `i`-th call to
`crypto.randomUUID()`, whose platform contract is to return an RFC-4122
version-4 UUID string).  The final line returns the sole element when the
count is one and otherwise the elements joined by the newline character. -/

/-- zod `z.number().min(1).max(100)` as a predicate on the supplied count. -/
def countInBounds (c : ℚ) : Bool :=
  decide (1 ≤ c) && decide (c ≤ 100)

/-- zod validation of the `count` field: absent takes the default 1, present
values outside `[1,100]` are rejected before the handler runs. -/
def validateCount (c : Option ℚ) : Except String ℚ :=
  match c with
  | none => .ok 1
  | some v => if countInBounds v then .ok v else .error "Number must be greater than or equal to 1 and less than or equal to 100"

/-- The `results` array after the generation loop ran `count` times. -/
def generateResults (gen : ℕ → String) (count : ℕ) : List String :=
  (List.range count).map gen

/-- Final shaping: a count of exactly one returns the first element alone,
any other count returns the elements joined by the newline character. -/
def generateDataReturn (count : ℕ) (results : List String) : String :=
  if count = 1 then results.headD "" else String.intercalate "\n" results

/-- The whole tool for an integral validated count: loop then shape. -/
def generateDataExecute (gen : ℕ → String) (count : ℕ) : String :=
  generateDataReturn count (generateResults gen count)

/-! ## The json-utility tool (src/core/tools.ts)

The handler parses `json` with the platform `JSON.parse` inside a `try`; on
a parse failure the `catch` returns the textual `Invalid JSON: <message>`
string when the operation is `validate` and rethrows for every other
operation.  The platform JSON library (parse, minified stringify, 2-space
stringify, property access) is abstract over the parsed-value type `J`; the
recursive `extractKeys` of the repository and the `key_path` walk operate on
that abstract value through the interface.  (The `extractKeys` recursion is
never reached on malformed input, which is all the claims need.) -/

inductive JsonOp where
  | validate | format | minify | extract_keys | extract_values
deriving DecidableEq, Repr

structure JsonLib (J : Type) where
  /-- JS `JSON.parse`; `none` means it threw a syntax error. -/
  parse : String → Option J
  /-- the message of the syntax error raised for a given input text -/
  parseErrMsg : String → String
  /-- JS `JSON.stringify(v)` -/
  stringifyMin : J → String
  /-- JS `JSON.stringify(v, null, 2)` -/
  stringifyFmt : J → String
  /-- the recursive handler walk `extractKeys` over the parsed value -/
  keysOf : J → List String
  /-- property access `value[key]`; `none` means `undefined` -/
  getKey : J → String → Option J

/-- Possible successful return values of `json_utility`: a plain string, the
key list from `extract_keys`, or the (possibly null) extracted value. -/
inductive JsonResult (J : Type) where
  | str : String → JsonResult J
  | keyList : List String → JsonResult J
  | value : Option J → JsonResult J
deriving DecidableEq

/-- The extract-values loop: walk the dot-separated key path, returning null
as soon as a step is undefined. -/
def walkPath {J : Type} (get : J → String → Option J) : J → List String → Option J
  | v, [] => some v
  | v, k :: ks =>
      match get v k with
      | none => none
      | some v2 => walkPath get v2 ks

def jsonUtilityExecute {J : Type} (lib : JsonLib J) (op : JsonOp)
    (json : String) (keyPath : Option String) : Except String (JsonResult J) :=
  match lib.parse json with
  | none =>
      if op = .validate then .ok (.str ("Invalid JSON: " ++ lib.parseErrMsg json))
      else .error (lib.parseErrMsg json)
  | some parsed =>
      match op with
      | .validate => .ok (.str "Valid JSON")
      | .format => .ok (.str (lib.stringifyFmt parsed))
      | .minify => .ok (.str (lib.stringifyMin parsed))
      | .extract_keys => .ok (.keyList (lib.keysOf parsed))
      | .extract_values =>
          match keyPath with
          | none => .error "key_path required for extract_values operation"
          | some kp => .ok (.value (walkPath lib.getKey parsed (kp.splitOn ".")))

/-! ## The staged-download upload pipeline (per-call-credential Instagram tool file)

`downloadFile(url, filename)` fetches the URL; a non-OK HTTP status throws
before any file is created.  Otherwise the temp dir is ensured,
`fs.createWriteStream(filePath)` creates the destination file, and the
response body is streamed into it; a mid-stream failure throws out of
`downloadFile` with the (partially written) file already on disk.  On success
the path is returned.

`cleanupFile(filePath)` unlinks the path if it exists, swallowing (logging)
any error; it never throws.

The staging directory is a `Finset String` of existing paths.  The network
outcome of one `fetch` is an explicit `FetchOutcome`. -/

/-- Contents of the staging directory: the set of file paths that exist. -/
abbrev StagingDir := Finset String

/-- Outcome of one `fetch` + stream-to-disk attempt (external). -/
inductive FetchOutcome where
  /-- non-OK HTTP status: `downloadFile` throws before `createWriteStream`
  runs, so no file is created. -/
  | httpError
  /-- the response was OK and `createWriteStream` created the file, but the
  body stream failed partway: `downloadFile` throws with the partially
  written file left on disk. -/
  | midStream
  /-- the file was fully written and the path is returned. -/
  | ok
deriving DecidableEq, Repr

def downloadFile (outcome : FetchOutcome) (filename : String) (fs : StagingDir) :
    Except String String × StagingDir :=
  match outcome with
  | .httpError => (.error "Failed to download file", fs)
  | .midStream => (.error "stream error", insert filename fs)
  | .ok => (.ok filename, insert filename fs)

/-- Embeds `cleanupFile`: unlink if the path exists; a thrown unlink error is
caught and logged (`unlinkFails` says whether `fs.unlinkSync` threw).  Never
throws. -/
def cleanupFile (unlinkFails : Bool) (p : String) (fs : StagingDir) : StagingDir :=
  if p ∈ fs then (if unlinkFails then fs else fs.erase p) else fs

/-- The external outcomes of one `instagram_upload_photo` invocation. -/
structure PhotoCallOutcomes where
  /-- outcome of `login(username, password)` -/
  login : Except String Unit
  /-- the download of `imageUrl` -/
  fetch : FetchOutcome
  /-- outcome of `uploadPhoto(ig, localFilePath, caption)` -/
  upload : Except String String
  /-- whether `fs.unlinkSync` throws during cleanup -/
  unlinkFails : Bool

/-- The `{success, ...}` JSON object the handler itself returns (the handler
catches every error, so it always returns, never throws). -/
structure ToolReply where
  success : Bool
  message : String
deriving DecidableEq, Repr

/-- Embeds `instagram_upload_photo.execute` with staging state threaded
through.
`localFilePath` starts `null` and is assigned only when `downloadFile`
returns; the `finally` block runs `cleanupFile` only when `localFilePath` is
non-null. -/
def uploadPhotoExecute (env : PhotoCallOutcomes) (filename : String)
    (fs : StagingDir) : ToolReply × StagingDir :=
  match env.login with
  | .error e => (⟨false, e⟩, fs)
  | .ok _ =>
      match downloadFile env.fetch filename fs with
      | (.error e, fs1) =>
          -- downloadFile threw: the assignment to localFilePath never ran, so
          -- the finally block sees null and skips cleanupFile.
          (⟨false, e⟩, fs1)
      | (.ok p, fs1) =>
          match env.upload with
          | .error e => (⟨false, e⟩, cleanupFile env.unlinkFails p fs1)
          | .ok m => (⟨true, m⟩, cleanupFile env.unlinkFails p fs1)

/-- The external outcomes of one `instagram_upload_video` invocation. -/
structure VideoCallOutcomes where
  login : Except String Unit
  /-- the download of `videoUrl` (first) -/
  fetchVideo : FetchOutcome
  /-- the download of `coverImageUrl` (second) -/
  fetchCover : FetchOutcome
  /-- outcome of `uploadVideo(ig, localVideoPath, localCoverPath, caption)` -/
  upload : Except String String
  /-- whether `fs.unlinkSync` throws while cleaning the video file -/
  unlinkVideoFails : Bool
  /-- whether `fs.unlinkSync` throws while cleaning the cover file -/
  unlinkCoverFails : Bool

/-- Embeds `instagram_upload_video.execute`: downloads the video, then the cover,
uploads, and in `finally` cleans each assigned local path in turn with the
error-swallowing `cleanupFile`. -/
def uploadVideoExecute (env : VideoCallOutcomes) (videoName coverName : String)
    (fs : StagingDir) : ToolReply × StagingDir :=
  match env.login with
  | .error e => (⟨false, e⟩, fs)
  | .ok _ =>
      match downloadFile env.fetchVideo videoName fs with
      | (.error e, fs1) =>
          -- video download threw: both local paths are still null, finally
          -- cleans nothing.
          (⟨false, e⟩, fs1)
      | (.ok pv, fs1) =>
          match downloadFile env.fetchCover coverName fs1 with
          | (.error e, fs2) =>
              -- cover download threw: only localVideoPath is assigned, the
              -- finally block cleans just the video file.
              (⟨false, e⟩, cleanupFile env.unlinkVideoFails pv fs2)
          | (.ok pc, fs2) =>
              let cleaned :=
                cleanupFile env.unlinkCoverFails pc
                  (cleanupFile env.unlinkVideoFails pv fs2)
              match env.upload with
              | .error e => (⟨false, e⟩, cleaned)
              | .ok m => (⟨true, m⟩, cleaned)

/-! ## The timeline feed (src/instagram.ts) and the timeline tool

`getTimelineFeed` builds the library feed object and then reassigns

```
feed.items = async () => {
  const items = await feed.items();
  return items.slice(0, limit);
};
```

The arrow function reads `feed.items` at call time; that property is by then
the arrow function itself (the prototype method of the library is shadowed by
the own-property assignment), so every call recurses into itself and the
original fetch is unreachable.  We model the JS call stack with explicit
`fuel`; exhausting it is the `RangeError: Maximum call stack size exceeded`
that V8 raises, and no finite stack ever suffices.  `fetchedItems` is what
the shadowed library `items()` method would have produced — kept as a
parameter to state that the failure happens for every feed content. -/

def overriddenItems (limit : ℕ) (fuel : ℕ) : Option (List α) :=
  match fuel with
  | 0 => none
  | fuel + 1 => (overriddenItems limit fuel).map (fun items => items.take limit)

/-- Embeds `getTimelineFeed(ig, limit)` as observed by its caller: either the
item list it returns or the error it throws. -/
def getTimelineFeed (fetchedItems : List α) (limit : ℕ) (fuel : ℕ) :
    Except String (List α) :=
  match overriddenItems (α := α) limit fuel with
  | none => .error "Maximum call stack size exceeded"
  | some items =>
      -- dead code in practice: the recursion above never produces a value
      let _ := fetchedItems
      .ok items

/-- Embeds `instagram_get_timeline.execute` (per-call-credential Instagram
tool file): login, re-clamp the limit into `[1,50]` (out-of-range falls back to
10), call `getTimelineFeed`, then slice the result to the validated limit
(first lowering the limit to the available length). -/
def instagramGetTimeline (loginResult : Except String Unit)
    (fetchedItems : List α) (limit : ℤ) (fuel : ℕ) : Except String (List α) :=
  match loginResult with
  | .error e => .error e
  | .ok _ =>
      let validatedLimit : ℤ := if limit < 1 || limit > 50 then 10 else limit
      match getTimelineFeed fetchedItems validatedLimit.toNat fuel with
      | .error e => .error e
      | .ok result =>
          let sliceLimit :=
            if result.length < validatedLimit.toNat then result.length
            else validatedLimit.toNat
          .ok (result.take sliceLimit)

/-! ## Credentials (src/tools/instagramTools.ts and the per-call variant)

The env-credential tool file reads `process.env.IG_USERNAME` /
`process.env.IG_PASSWORD` in `getCredentials` and throws
`Instagram credentials not provided` when either is falsy (absent or empty),
before any `login` call.  The per-call variant declares `username` and
`password` as required zod string fields, so a call without them is rejected
by schema validation and its handler (hence `login`) never runs. -/

/-- The process environment slice the Instagram tools read. -/
structure IgEnv where
  igUsername : Option String
  igPassword : Option String

/-- JS falsiness of an env var: absent (`undefined`) or the empty string. -/
def falsyEnv : Option String → Bool
  | none => true
  | some s => s = ""

/-- Embeds `getCredentials()` from src/tools/instagramTools.ts. -/
def getCredentials (env : IgEnv) : Except String (String × String) :=
  if falsyEnv env.igUsername || falsyEnv env.igPassword then
    .error "Instagram credentials not provided"
  else
    .ok (env.igUsername.getD "", env.igPassword.getD "")

/-- Shared shape of all four env-credential Instagram tool handlers
(`instagram_upload_photo`, `instagram_upload_video`, `instagram_get_profile`,
`instagram_get_timeline` in src/tools/instagramTools.ts): resolve credentials,
log in, then run the tool-specific action on the session.  Returns the
handler outcome paired with whether `login` was ever invoked. -/
def envToolExecute {σ : Type} (env : IgEnv)
    (loginFn : String → String → Except String σ)
    (action : σ → Except String String) : Except String String × Bool :=
  match getCredentials env with
  | .error e => (.error e, false)
  | .ok (u, p) =>
      match loginFn u p with
      | .error e => (.error e, true)
      | .ok s => (action s, true)

/-- The raw argument bag the transport hands the per-call-credential tools. -/
structure IgArgBag where
  username : Option String
  password : Option String

/-- zod validation of the required `username` / `password` string fields of
the per-call variant, followed by the handler (which begins with `login`).  A bag
missing either field fails validation and the handler never runs. -/
def perCallToolDispatch {σ : Type} (bag : IgArgBag)
    (loginFn : String → String → Except String σ)
    (action : σ → Except String String) : Except String String × Bool :=
  match bag.username, bag.password with
  | some u, some p =>
      (match loginFn u p with
       | .error e => (.error e, true)
       | .ok s => (action s, true))
  | none, _ => (.error "Required field username missing", false)
  | _, none => (.error "Required field password missing", false)

/-- Does an embedded JS computation end in a thrown error? -/
def exceptFailed {ε α : Type} : Except ε α → Bool
  | .ok _ => false
  | .error _ => true

/-- A concrete instance of the platform JSON interface over `Bool`-valued
documents, used to evaluate the `json_utility` theorems on closed inputs.
It satisfies the stringify/parse round-trip contract of the platform
library. -/
def toyJsonLib : JsonLib Bool where
  parse s :=
    if s = "true" || s = "T" then some true
    else if s = "false" || s = "F" then some false
    else none
  parseErrMsg _ := "Unexpected token"
  stringifyMin b := if b then "true" else "false"
  stringifyFmt b := if b then "T" else "F"
  keysOf _ := []
  getKey _ _ := none

/-! ## Theorems -/

theorem not_mem_cleanupFile_self (p : String) (fs : StagingDir) :
    p ∉ cleanupFile false p fs := by
  unfold cleanupFile
  by_cases h : p ∈ fs <;> simp [h, Finset.not_mem_erase]

theorem not_mem_cleanupFile_of_not_mem (b : Bool) (p q : String)
    (fs : StagingDir) (h : q ∉ fs) : q ∉ cleanupFile b p fs := by
  unfold cleanupFile
  by_cases hp : p ∈ fs <;> by_cases hb : b <;>
    simp [hp, hb, h, Finset.mem_erase]

theorem overriddenItems_eq_none {α : Type} (limit fuel : ℕ) :
    overriddenItems (α := α) limit fuel = none := by
  induction fuel with
  | zero => rfl
  | succ n ih => simp [overriddenItems, ih]

/-- C1: the claim says the temporary file staged by `instagram_upload_photo`
is removed before the handler returns on every exit path, including a
download that fails mid-stream after the destination file has been created.
The code violates this: at the failing input (successful login, mid-stream
download failure), `downloadFile` throws before its return value is assigned
to `localFilePath`, so the `finally` block — whose own comment says it always
cleans up the temporary file — skips `cleanupFile`, and the partially written
staged file is still present when the handler returns its failure reply. -/
theorem upload_photo_midstream_leaves_staged_file :
    (uploadPhotoExecute ⟨.ok (), .midStream, .ok "receipt", false⟩
        "instagram_photo_1.jpg" ∅).1.success = false ∧
    "instagram_photo_1.jpg" ∈
      (uploadPhotoExecute ⟨.ok (), .midStream, .ok "receipt", false⟩
        "instagram_photo_1.jpg" ∅).2 := by
  constructor
  · rfl
  · simp [uploadPhotoExecute, downloadFile]

/-- C2: in `instagram_upload_video`, each staged file is cleaned up
independently.  Whenever the video download completed (its local path was
assigned) and its own unlink does not fail, the video file is absent from the
staging area when the handler returns — for every cover-download outcome,
upload outcome, and cover-unlink outcome.  Symmetrically, whenever both
downloads completed and the cover unlink does not fail, the cover file is
absent — for every upload outcome and video-unlink outcome. -/
theorem upload_video_cleanup_independent (env : VideoCallOutcomes)
    (videoName coverName : String) (fs : StagingDir)
    (hlogin : env.login = .ok ()) :
    (env.fetchVideo = .ok → env.unlinkVideoFails = false →
      videoName ∉ (uploadVideoExecute env videoName coverName fs).2) ∧
    (env.fetchVideo = .ok → env.fetchCover = .ok → env.unlinkCoverFails = false →
      coverName ∉ (uploadVideoExecute env videoName coverName fs).2) := by
  obtain ⟨login, fv, fc, up, uv, uc⟩ := env
  simp only at hlogin ⊢
  subst hlogin
  constructor
  · intro hfv huv
    subst hfv; subst huv
    cases fc <;> cases up <;>
      simp only [uploadVideoExecute, downloadFile] <;>
      first
        | exact not_mem_cleanupFile_self _ _
        | exact not_mem_cleanupFile_of_not_mem _ _ _ _
            (not_mem_cleanupFile_self _ _)
  · intro hfv hfc huc
    subst hfv; subst hfc; subst huc
    cases up <;>
      simp only [uploadVideoExecute, downloadFile] <;>
      exact not_mem_cleanupFile_self _ _

theorem upload_video_cleanup_independent_witness :
    ("instagram_video_1.mp4" ∉
      (uploadVideoExecute ⟨.ok (), .ok, .midStream, .ok "receipt", false, true⟩
        "instagram_video_1.mp4" "instagram_cover_1.jpg" ∅).2) ∧
    ("instagram_cover_1.jpg" ∉
      (uploadVideoExecute ⟨.ok (), .ok, .ok, .error "upload failed", true, false⟩
        "instagram_video_1.mp4" "instagram_cover_1.jpg" ∅).2) :=
  ⟨(upload_video_cleanup_independent
      ⟨.ok (), .ok, .midStream, .ok "receipt", false, true⟩
      "instagram_video_1.mp4" "instagram_cover_1.jpg" ∅ rfl).1 rfl rfl,
   (upload_video_cleanup_independent
      ⟨.ok (), .ok, .ok, .error "upload failed", true, false⟩
      "instagram_video_1.mp4" "instagram_cover_1.jpg" ∅ rfl).2 rfl rfl rfl⟩

/-- C3: the claim says that for every validated limit and every feed the
adapter returns, `instagram_get_timeline` returns exactly `min(L, K)` items.
The code violates this for every input: `getTimelineFeed` reassigns
`feed.items` to a closure that awaits `feed.items()` — the closure itself —
so the call recurses until the JS stack is exhausted, and the tool invocation
always fails with the stack-overflow error instead of returning items,
whatever the feed contents, the requested limit, and the available stack
depth. -/
theorem timeline_always_stack_overflows (fetchedItems : List ℕ) (limit : ℤ)
    (fuel : ℕ) :
    instagramGetTimeline (.ok ()) fetchedItems limit fuel =
      .error "Maximum call stack size exceeded" := by
  simp [instagramGetTimeline, getTimelineFeed, overriddenItems_eq_none]

/-- C4: for every unparseable `json` input, `json_utility` with operation
`validate` returns the textual invalid-JSON message as a successful result,
while every other operation rethrows the parse error as a failure. -/
theorem json_malformed_validate_vs_others {J : Type} (lib : JsonLib J)
    (s : String) (kp : Option String) (h : lib.parse s = none) :
    jsonUtilityExecute lib .validate s kp =
      .ok (.str ("Invalid JSON: " ++ lib.parseErrMsg s)) ∧
    ∀ op : JsonOp, op ≠ .validate →
      jsonUtilityExecute lib op s kp = .error (lib.parseErrMsg s) := by
  constructor
  · simp [jsonUtilityExecute, h]
  · intro op hop
    cases op <;> simp_all [jsonUtilityExecute]

theorem json_malformed_validate_vs_others_witness :
    jsonUtilityExecute toyJsonLib .validate "not json" none =
      .ok (.str ("Invalid JSON: " ++ toyJsonLib.parseErrMsg "not json")) ∧
    jsonUtilityExecute toyJsonLib .minify "not json" none =
      .error (toyJsonLib.parseErrMsg "not json") :=
  ⟨(json_malformed_validate_vs_others toyJsonLib "not json" none rfl).1,
   (json_malformed_validate_vs_others toyJsonLib "not json" none rfl).2
     .minify (by simp)⟩

/-- C5: `calculate` with operation `divide` and `b = 0` is reported to the
caller as a failure envelope for every `a`, and for every non-zero `b` it
succeeds with payload `a / b`. -/
theorem calculate_divide_by_zero (pow : ℚ → ℚ → ℚ) (a b : ℚ) :
    dispatchCalculate pow .divide a 0 =
      .failure "Division by zero is not allowed" ∧
    (b ≠ 0 → dispatchCalculate pow .divide a b = .success (a / b)) := by
  constructor
  · simp [dispatchCalculate, calcExecute, Envelope.ofExcept]
  · intro hb
    simp [dispatchCalculate, calcExecute, hb, Envelope.ofExcept]

theorem calculate_divide_by_zero_witness :
    dispatchCalculate (fun a _ => a) .divide 5 0 =
      .failure "Division by zero is not allowed" ∧
    dispatchCalculate (fun a _ => a) .divide 5 2 = .success (5 / 2) :=
  ⟨(calculate_divide_by_zero (fun a _ => a) 5 2).1,
   (calculate_divide_by_zero (fun a _ => a) 5 2).2 (by norm_num)⟩

/-- C6: applying `text_transform` with operation `reverse` twice returns the
original string exactly, for every string. -/
theorem text_reverse_roundtrip (p : TextPlatform) (s : String) :
    textTransform p .reverse (textTransform p .reverse s) = s := by
  cases s with
  | mk data => simp [textTransform]

/-- C7: for every JSON text that parses to a value `v`, `minify` succeeds
with the minified serialisation of `v`, `format` applied to that output
succeeds with the 2-space serialisation of `v`, and that final text parses
back to the same structure `v` — given the platform JSON library round-trip
contract that stringified values parse back to themselves. -/
theorem json_minify_format_preserves_structure {J : Type} (lib : JsonLib J)
    (hmin : ∀ v, lib.parse (lib.stringifyMin v) = some v)
    (hfmt : ∀ v, lib.parse (lib.stringifyFmt v) = some v)
    (Jtext : String) (v : J) (hv : lib.parse Jtext = some v) :
    jsonUtilityExecute lib .minify Jtext none =
      .ok (.str (lib.stringifyMin v)) ∧
    jsonUtilityExecute lib .format (lib.stringifyMin v) none =
      .ok (.str (lib.stringifyFmt v)) ∧
    lib.parse (lib.stringifyFmt v) = some v := by
  refine ⟨?_, ?_, hfmt v⟩
  · simp [jsonUtilityExecute, hv]
  · simp [jsonUtilityExecute, hmin]

theorem json_minify_format_preserves_structure_witness :
    jsonUtilityExecute toyJsonLib .minify "true" none =
      .ok (.str (toyJsonLib.stringifyMin true)) ∧
    jsonUtilityExecute toyJsonLib .format (toyJsonLib.stringifyMin true) none =
      .ok (.str (toyJsonLib.stringifyFmt true)) ∧
    toyJsonLib.parse (toyJsonLib.stringifyFmt true) = some true :=
  json_minify_format_preserves_structure toyJsonLib
    (by intro v; cases v <;> rfl) (by intro v; cases v <;> rfl)
    "true" true rfl

/-- C8: for every integral count `N` in `[1, 100]`, the `count` value passes
schema validation, the generation loop produces exactly `N` strings, and —
given the platform contract that every `crypto.randomUUID` call yields a
UUID-format string — every produced string is UUID-format; while the counts
0 and 101 are rejected by schema validation before the handler runs. -/
theorem generate_uuid_count_bounds (N : ℕ) (gen : ℕ → String)
    (isUuidFormat : String → Prop)
    (hN : 1 ≤ N ∧ N ≤ 100) (hgen : ∀ i, isUuidFormat (gen i)) :
    validateCount (some (N : ℚ)) = .ok (N : ℚ) ∧
    (generateResults gen N).length = N ∧
    (∀ s ∈ generateResults gen N, isUuidFormat s) ∧
    exceptFailed (validateCount (some 0)) = true ∧
    exceptFailed (validateCount (some 101)) = true := by
  refine ⟨?_, ?_, ?_, by decide, by decide⟩
  · have h1 : (1 : ℚ) ≤ (N : ℚ) := by exact_mod_cast hN.1
    have h2 : (N : ℚ) ≤ 100 := by exact_mod_cast hN.2
    simp [validateCount, countInBounds, h1, h2]
  · simp [generateResults]
  · intro s hs
    simp only [generateResults, List.mem_map] at hs
    obtain ⟨i, _, rfl⟩ := hs
    exact hgen i

theorem generate_uuid_count_bounds_witness :
    validateCount (some ((3 : ℕ) : ℚ)) = .ok ((3 : ℕ) : ℚ) ∧
    (generateResults (fun _ => "123e4567-e89b-42d3-a456-426614174000") 3).length = 3 ∧
    (∀ s ∈ generateResults (fun _ => "123e4567-e89b-42d3-a456-426614174000") 3,
      s.length = 36) ∧
    exceptFailed (validateCount (some 0)) = true ∧
    exceptFailed (validateCount (some 101)) = true :=
  generate_uuid_count_bounds 3 (fun _ => "123e4567-e89b-42d3-a456-426614174000")
    (fun s => s.length = 36) (by decide) (fun _ => rfl)

/-- C9: the Instagram tools take credentials either from the process
environment (the env-credential tool file, via `getCredentials`) or per-call
(the per-call-credential tool file, via required schema fields).  When the
environment lacks a usable username or password, every env-credential tool
fails with the credentials-missing error and `login` is never invoked; when a
per-call argument bag lacks the username or password field, schema validation
rejects the call and `login` is never invoked. -/
theorem credentials_missing_fails_before_login {σ : Type}
    (env : IgEnv) (loginFn : String → String → Except String σ)
    (action : σ → Except String String) (bag : IgArgBag)
    (henv : falsyEnv env.igUsername = true ∨ falsyEnv env.igPassword = true)
    (hbag : bag.username = none ∨ bag.password = none) :
    envToolExecute env loginFn action =
      (.error "Instagram credentials not provided", false) ∧
    exceptFailed (perCallToolDispatch bag loginFn action).1 = true ∧
    (perCallToolDispatch bag loginFn action).2 = false := by
  refine ⟨?_, ?_, ?_⟩
  · rcases henv with h | h <;> simp [envToolExecute, getCredentials, h]
  all_goals
    obtain ⟨bu, bp⟩ := bag
    cases bu <;> cases bp <;>
      first
        | rfl
        | (rcases hbag with h | h <;> simp at h)

theorem credentials_missing_fails_before_login_witness :
    envToolExecute (σ := Unit) ⟨none, some "hunter2"⟩
      (fun _ _ => .ok ()) (fun _ => .ok "profile") =
      (.error "Instagram credentials not provided", false) ∧
    exceptFailed (perCallToolDispatch (σ := Unit) ⟨none, some "hunter2"⟩
      (fun _ _ => .ok ()) (fun _ => .ok "profile")).1 = true ∧
    (perCallToolDispatch (σ := Unit) ⟨none, some "hunter2"⟩
      (fun _ _ => .ok ()) (fun _ => .ok "profile")).2 = false :=
  credentials_missing_fails_before_login ⟨none, some "hunter2"⟩
    (fun _ _ => .ok ()) (fun _ => .ok "profile") ⟨none, some "hunter2"⟩
    (Or.inl rfl) (Or.inl rfl)

/-- C10: the return shape of `generate_data` depends on the count: for
`count = 1` the handler returns the single generated value alone (the first
loop output), and for every `count > 1` it returns the generated values
joined by newline characters into one string. -/
theorem generate_return_shape (gen : ℕ → String) (n : ℕ) (hn : 1 < n) :
    generateDataExecute gen 1 = gen 0 ∧
    generateDataExecute gen n =
      String.intercalate "\n" (generateResults gen n) := by
  have hne : n ≠ 1 := by omega
  constructor
  · have h1 : List.range 1 = [0] := rfl
    simp [generateDataExecute, generateDataReturn, generateResults, h1]
  · simp [generateDataExecute, generateDataReturn, hne]

theorem generate_return_shape_witness :
    generateDataExecute (fun i => toString i) 1 = toString 0 ∧
    generateDataExecute (fun i => toString i) 2 =
      String.intercalate "\n" (generateResults (fun i => toString i) 2) :=
  generate_return_shape (fun i => toString i) 2 (by norm_num)

end ThinkforceMcp
